import Mathlib

/-!
Verification development for the Sentinel DataOps incident lifecycle
orchestrator (App.tsx, services/geminiService.ts of the repository).

The data model mirrors types.ts; the operations mirror the handlers and
effects of App.tsx and the service boundary of geminiService.ts.  The
external inference calls are modelled by passing their outcome in as data
(a value of type Except String _), exactly at the point where the source
awaits the network call.
-/

/-- Mirror of the LogLevel enum in types.ts. -/
inductive LogLevel where
  | INFO
  | WARNING
  | ERROR
  | CRITICAL
  | SUCCESS
deriving DecidableEq

/-- Mirror of the LogEntry interface in types.ts. -/
structure LogEntry where
  id : String
  timestamp : String
  service : String
  level : LogLevel
  message : String
  raw : Option String := none
deriving DecidableEq

/-- Mirror of the severity union type of SystemAlert in types.ts. -/
inductive Severity where
  | low
  | medium
  | high
  | critical
deriving DecidableEq

/-- Mirror of the status union type of SystemAlert in types.ts. -/
inductive AlertStatus where
  | active
  | investigating
  | healing
  | resolved
deriving DecidableEq

/-- Mirror of the SystemAlert interface in types.ts.  The optional array
fields agentThoughts and relatedLogIds are modelled as lists (the source
treats an absent array and an empty array identically in every code path:
the only reads are a length check and element iteration). -/
structure SystemAlert where
  id : String
  title : String
  description : String
  severity : Severity
  status : AlertStatus
  affectedService : String
  timestamp : String
  agentThoughts : List String := []
  fixAction : Option String := none
  relatedLogIds : List String := []
deriving DecidableEq

/-- Result shape of agentDiagnoseAndHeal in geminiService.ts:
curly-brace object with thoughts, action, success. -/
structure Diagnosis where
  thoughts : String
  action : String
  success : Bool
deriving DecidableEq

/-- Draft alert shape produced by the correlation inference call inside
analyzeForAlerts (geminiService.ts, response schema lines 100-113). -/
structure AlertDraft where
  title : String
  description : String
  severity : Severity
  affectedService : String
  suggestedFix : String := ""
  relatedLogIds : List String := []
deriving DecidableEq

/-- Embedding of agentDiagnoseAndHeal (geminiService.ts lines 133-176).
The argument apiKeyPresent models the truthiness of process.env.API_KEY;
callResult models the awaited inference call: ok d when the request
returns the schema-shaped object d, error when the request raises. -/
def agentDiagnoseAndHeal (apiKeyPresent : Bool) (callResult : Except String Diagnosis) :
    Diagnosis :=
  if apiKeyPresent = false then
    { thoughts := "API Key missing.", action := "None", success := false }
  else
    match callResult with
    | Except.ok d => d
    | Except.error _ =>
        { thoughts := "Agent process failed.", action := "Manual intervention required",
          success := false }

/-- Materialization of one alert draft inside analyzeForAlerts
(geminiService.ts lines 119-125): spread the draft, then assign a fresh
id, status active, a creation timestamp and empty agentThoughts. -/
def materializeDraft (now nid : String) (idx : Nat) (a : AlertDraft) : SystemAlert :=
  { id := "alert-" ++ nid ++ "-" ++ toString idx
    title := a.title
    description := a.description
    severity := a.severity
    status := AlertStatus.active
    affectedService := a.affectedService
    timestamp := now
    agentThoughts := []
    fixAction := none
    relatedLogIds := a.relatedLogIds }

/-- Embedding of analyzeForAlerts (geminiService.ts lines 69-131).
inferResult models the awaited correlation inference call; now and nid
model the wall clock reads (new Date / Date.now). -/
def analyzeForAlerts (apiKeyPresent : Bool) (logs : List LogEntry)
    (inferResult : Except String (List AlertDraft)) (now nid : String) :
    List SystemAlert :=
  if apiKeyPresent = false ∨ logs = [] then []
  else
    let problematicLogs := logs.filter fun l =>
      l.level == LogLevel.ERROR || l.level == LogLevel.CRITICAL || l.level == LogLevel.WARNING
    if problematicLogs = [] then []
    else
      match inferResult with
      | Except.error _ => []
      | Except.ok drafts => drafts.enum.map fun p => materializeDraft now nid p.1 p.2

/-- Embedding of the monitorLogs body of the Agent Monitoring Effect
(App.tsx lines 106-124): early return on empty logs, then the gate
hasErrors AND alerts empty, then setAlerts(analyzeForAlerts logs).
The returned value is the alert store after the effect body. -/
def monitorLogs (logs : List LogEntry) (alerts : List SystemAlert)
    (apiKeyPresent : Bool) (inferResult : Except String (List AlertDraft))
    (now nid : String) : List SystemAlert :=
  if logs = [] then alerts
  else
    if (logs.any fun l => l.level == LogLevel.ERROR || l.level == LogLevel.CRITICAL)
        && alerts.isEmpty then
      analyzeForAlerts apiKeyPresent logs inferResult now nid
    else alerts

/-- The per-element update performed by setAlerts(prev.map ...) when the
Healing Sequencer marks an alert healing or resolved (App.tsx lines 133
and 153). -/
def setStatus (targetId : String) (st : AlertStatus) (a : SystemAlert) : SystemAlert :=
  if a.id == targetId then { a with status := st } else a

/-- The per-element update performed by setAlerts when the Healing
Sequencer records the diagnosis (App.tsx lines 142-146): agentThoughts
is assigned the one-element array containing the returned thoughts, and
fixAction is assigned the returned action. -/
def recordDiagnosis (targetId : String) (d : Diagnosis) (a : SystemAlert) : SystemAlert :=
  if a.id == targetId then
    { a with agentThoughts := [d.thoughts], fixAction := some d.action }
  else a

/-- The SUCCESS record appended by the resolution branch (App.tsx lines
156-162). -/
def resolutionLog (alert : SystemAlert) (d : Diagnosis) (now nid : String) : LogEntry :=
  { id := "sys-" ++ nid
    timestamp := now
    service := "Sentinel-Agent"
    level := LogLevel.SUCCESS
    message := "Resolved alert: " ++ alert.title ++ ". Action Taken: " ++ d.action
    raw := none }

/-- Combined Log Store and Alert Store state of App.tsx. -/
structure AppData where
  logs : List LogEntry
  alerts : List SystemAlert
deriving DecidableEq

/-- One full pass of the healSystem loop body for a single captured alert
(App.tsx lines 131-164), with d the diagnosis value the await returned:
mark healing, record the diagnosis, and on success mark resolved and
append the resolution log. -/
def healAlertPass (s : AppData) (alert : SystemAlert) (d : Diagnosis)
    (now nid : String) : AppData :=
  let alerts1 := s.alerts.map (setStatus alert.id AlertStatus.healing)
  let alerts2 := alerts1.map (recordDiagnosis alert.id d)
  if d.success then
    { logs := s.logs ++ [resolutionLog alert d now nid]
      alerts := alerts2.map (setStatus alert.id AlertStatus.resolved) }
  else
    { logs := s.logs, alerts := alerts2 }

/-- Predicate of the fallback filter in handleViewRelatedLogs (App.tsx
line 90): same service as the alert and level ERROR, CRITICAL or
WARNING. -/
def severeForService (alert : SystemAlert) (l : LogEntry) : Bool :=
  l.service == alert.affectedService &&
    (l.level == LogLevel.ERROR || l.level == LogLevel.CRITICAL || l.level == LogLevel.WARNING)

/-- Embedding of handleViewRelatedLogs (App.tsx lines 84-95): the value
stored into logFilterIds (none models the null filter). -/
def handleViewRelatedLogs (alert : SystemAlert) (logs : List LogEntry) :
    Option (List String) :=
  if alert.relatedLogIds ≠ [] then some alert.relatedLogIds
  else
    let relevantLogs := (logs.filter (severeForService alert)).map fun l => l.id
    if relevantLogs ≠ [] then some relevantLogs else none

/-- Embedding of the displayedLogs memo (App.tsx lines 101-104). -/
def displayedLogs (logs : List LogEntry) (logFilterIds : Option (List String)) :
    List LogEntry :=
  match logFilterIds with
  | none => logs
  | some ids => logs.filter fun l => ids.contains l.id

/-- The related-logs view an alert produces: handleViewRelatedLogs
composed with displayedLogs. -/
def relatedLogsView (alert : SystemAlert) (logs : List LogEntry) : List LogEntry :=
  displayedLogs logs (handleViewRelatedLogs alert logs)

/-- The user- and agent-triggered operations of App.tsx that mutate the
two stores.  Collaborator outputs (parsed logs, generated logs, the
heartbeat record, inference outcomes) enter as constructor data. -/
inductive AppOp where
  | fileUpload (parsed : List LogEntry)
  | enterpriseScenario (generated : List LogEntry)
  | refresh (heartbeat : LogEntry)
  | detect (apiKeyPresent : Bool) (inferResult : Except String (List AlertDraft))
      (now nid : String)
  | heal (alert : SystemAlert) (d : Diagnosis) (now nid : String)
  | resetData

/-- Whether an operation is the Reset Data button press. -/
def AppOp.isReset : AppOp → Bool
  | AppOp.resetData => true
  | _ => false

/-- Effect of each operation on the two stores: handleFileUpload appends
parsed logs (App.tsx line 50), handleEnterpriseScenario appends the
generated batch (line 61), handleRefresh appends one heartbeat (line 80),
the monitoring effect runs monitorLogs, healing runs one healAlertPass,
and the Reset Data button, rendered only when logs exist (line 255),
clears both stores (line 257). -/
def applyOp (s : AppData) : AppOp → AppData
  | AppOp.fileUpload parsed => { s with logs := s.logs ++ parsed }
  | AppOp.enterpriseScenario generated => { s with logs := s.logs ++ generated }
  | AppOp.refresh heartbeat => { s with logs := s.logs ++ [heartbeat] }
  | AppOp.detect key res now nid =>
      { s with alerts := monitorLogs s.logs s.alerts key res now nid }
  | AppOp.heal alert d now nid => healAlertPass s alert d now nid
  | AppOp.resetData => if s.logs = [] then s else { logs := [], alerts := [] }

/-- Folding a sequence of operations over the stores. -/
def applyOps (s : AppData) (ops : List AppOp) : AppData :=
  ops.foldl applyOp s

/-!
Small-step model of the Self-Healing Effect (App.tsx lines 127-171).

The effect has dependency array [alerts], no cleanup, and does not await
the async healSystem it launches: every commit of a setAlerts call
re-runs the effect, and when the new alert store still contains an
active alert a fresh healSystem invocation starts while earlier ones are
still suspended at an await.  A HealTask is one in-flight healSystem
invocation; its control point is one of the awaits of the loop body, and
its data is the captured current alert and the remaining snapshot of
activeAlerts.  Each ActStep runs one continuation of one task from its
suspension point to the next one (state updates inside one continuation
are batched, so the effect re-run check sees only the final alert
store of the continuation, matching React 18 automatic batching).
-/

/-- One in-flight healSystem invocation. -/
inductive HealTask where
  | idle (pending : List SystemAlert)
  | thinkWait (current : SystemAlert) (pending : List SystemAlert)
  | diagnosing (current : SystemAlert) (pending : List SystemAlert)
  | actWait (current : SystemAlert) (d : Diagnosis) (pending : List SystemAlert)
deriving DecidableEq

/-- Whether an alert record is in the active status (the filter of
App.tsx line 129 and the some-check of line 167). -/
def isActive (a : SystemAlert) : Bool :=
  a.status == AlertStatus.active

/-- The effect re-run performed after every alerts commit: if the new
store has an active alert, a fresh healSystem invocation is launched
with the snapshot alerts.filter(active) (App.tsx lines 127-171). -/
def spawnIfActive (alerts : List SystemAlert) (tasks : List HealTask) : List HealTask :=
  if alerts.any isActive then tasks ++ [HealTask.idle (alerts.filter isActive)]
  else tasks

/-- Global state of the effect system: the two stores plus the in-flight
healSystem invocations. -/
structure SysState where
  logs : List LogEntry
  alerts : List SystemAlert
  tasks : List HealTask
deriving DecidableEq

/-- Scheduler choices: which task continuation runs next.  startAlert i
runs task i from the top of its loop (setAlerts healing, then suspend in
the 2000 ms timer); timerThink i fires that timer and starts the
diagnose call; diagnoseReturn i d delivers the diagnose result (the
synchronous thoughts/fixAction update runs, then the task suspends in
the 4000 ms timer); timerAct fires it and runs the resolution branch. -/
inductive ActStep where
  | startAlert (i : Nat)
  | timerThink (i : Nat)
  | diagnoseReturn (i : Nat) (d : Diagnosis)
  | timerAct (i : Nat) (now nid : String)

/-- One scheduler step of the effect system. -/
def stepAct (s : SysState) : ActStep → SysState
  | ActStep.startAlert i =>
      match s.tasks.get? i with
      | some (HealTask.idle (a :: rest)) =>
          let alerts2 := s.alerts.map (setStatus a.id AlertStatus.healing)
          { logs := s.logs
            alerts := alerts2
            tasks := spawnIfActive alerts2 (s.tasks.set i (HealTask.thinkWait a rest)) }
      | _ => s
  | ActStep.timerThink i =>
      match s.tasks.get? i with
      | some (HealTask.thinkWait a rest) =>
          { s with tasks := s.tasks.set i (HealTask.diagnosing a rest) }
      | _ => s
  | ActStep.diagnoseReturn i d =>
      match s.tasks.get? i with
      | some (HealTask.diagnosing a rest) =>
          let alerts2 := s.alerts.map (recordDiagnosis a.id d)
          { logs := s.logs
            alerts := alerts2
            tasks := spawnIfActive alerts2 (s.tasks.set i (HealTask.actWait a d rest)) }
      | _ => s
  | ActStep.timerAct i now nid =>
      match s.tasks.get? i with
      | some (HealTask.actWait a d rest) =>
          if d.success then
            let alerts2 := s.alerts.map (setStatus a.id AlertStatus.resolved)
            { logs := s.logs ++ [resolutionLog a d now nid]
              alerts := alerts2
              tasks := spawnIfActive alerts2 (s.tasks.set i (HealTask.idle rest)) }
          else
            { s with tasks := s.tasks.set i (HealTask.idle rest) }
      | _ => s

/-- Running a schedule of steps. -/
def runActs (s : SysState) (acts : List ActStep) : SysState :=
  acts.foldl stepAct s

/-- Status of the alert with the given id in a store. -/
def statusOf (targetId : String) (alerts : List SystemAlert) : Option AlertStatus :=
  (alerts.find? fun a => a.id == targetId).map fun a => a.status

/-- Number of in-flight diagnose calls for the alert with the given id. -/
def diagnosingCount (targetId : String) (tasks : List HealTask) : Nat :=
  (tasks.filter fun t =>
    match t with
    | HealTask.diagnosing a _ => a.id == targetId
    | _ => false).length

/-- First alert of the two-alert race scenario. -/
def alertGlue : SystemAlert :=
  { id := "alert-0-0"
    title := "Glue job OOM failure"
    description := "AWS Glue job run failed with Java heap space OOM"
    severity := Severity.high
    status := AlertStatus.active
    affectedService := "AWS Glue"
    timestamp := "2024-01-01T00:00:00Z" }

/-- Second alert of the two-alert race scenario. -/
def alertSnow : SystemAlert :=
  { id := "alert-0-1"
    title := "Snowflake data staleness"
    description := "Snowflake staging tables missing fresh data"
    severity := Severity.critical
    status := AlertStatus.active
    affectedService := "Snowflake"
    timestamp := "2024-01-01T00:00:00Z" }

/-- State just after the Incident Detector stored two active alerts and
the alerts commit ran the effect for the first time. -/
def raceInit : SysState :=
  { logs := []
    alerts := [alertGlue, alertSnow]
    tasks := spawnIfActive [alertGlue, alertSnow] [] }

/-- Successful diagnosis for the Glue alert. -/
def diagGlue : Diagnosis :=
  { thoughts := "Kafka lag caused the Glue executor to exceed heap", action := "Scale Glue Workers",
    success := true }

/-- Successful diagnosis for the Snowflake alert. -/
def diagSnow : Diagnosis :=
  { thoughts := "Upstream Glue failure left the stage empty", action := "Trigger Backfill",
    success := true }

/-- Failed diagnosis for the Glue alert. -/
def diagGlueFail : Diagnosis :=
  { thoughts := "Could not isolate a root cause", action := "Collect more metrics",
    success := false }

/-- Schedule in which the effect re-run (triggered by marking the first
alert healing while the second is still active) launches a second
healSystem invocation; the first invocation later reaches the second
alert while the second invocation is still inside its diagnose call for
that same alert. -/
def raceScheduleC1 : List ActStep :=
  [ ActStep.startAlert 0
  , ActStep.startAlert 1
  , ActStep.timerThink 1
  , ActStep.timerThink 0
  , ActStep.diagnoseReturn 0 diagGlue
  , ActStep.timerAct 0 "2024-01-01T00:00:06Z" "1001"
  , ActStep.startAlert 0
  , ActStep.timerThink 0 ]

/-- Schedule in which the second invocation resolves the second alert
and the first invocation afterwards marks that resolved alert healing
again. -/
def raceScheduleC2 : List ActStep :=
  [ ActStep.startAlert 0
  , ActStep.startAlert 1
  , ActStep.timerThink 1
  , ActStep.diagnoseReturn 1 diagSnow
  , ActStep.timerAct 1 "2024-01-01T00:00:06Z" "1002"
  , ActStep.timerThink 0
  , ActStep.diagnoseReturn 0 diagGlueFail
  , ActStep.timerAct 0 "2024-01-01T00:00:08Z" "1003"
  , ActStep.startAlert 0 ]


/-!
Helper lemmas shared by the claim theorems.
-/

/-- After one healing pass, every store entry carrying the processed
alert id holds exactly the returned thoughts as its one-element thought
list, the returned action as fixAction, and status resolved or healing
according to the success flag. -/
theorem healAlertPass_alerts_spec (s : AppData) (alert : SystemAlert) (d : Diagnosis)
    (now nid : String) :
    ∀ a ∈ (healAlertPass s alert d now nid).alerts, a.id = alert.id →
      a.agentThoughts = [d.thoughts] ∧ a.fixAction = some d.action ∧
        a.status = (if d.success then AlertStatus.resolved else AlertStatus.healing) := by
  intro a ha hid
  unfold healAlertPass at ha
  by_cases hd : d.success
  · simp only [hd, if_true, List.map_map, List.mem_map, Function.comp] at ha
    obtain ⟨a0, -, rfl⟩ := ha
    by_cases h0 : a0.id = alert.id
    · simp [setStatus, recordDiagnosis, h0, hd]
    · exfalso
      simp [setStatus, recordDiagnosis, h0] at hid
  · simp only [hd, if_false, Bool.false_eq_true, List.map_map, List.mem_map,
      Function.comp] at ha
    obtain ⟨a0, -, rfl⟩ := ha
    by_cases h0 : a0.id = alert.id
    · simp [setStatus, recordDiagnosis, h0, hd]
    · exfalso
      simp [setStatus, recordDiagnosis, h0] at hid

/-- The Log Store after a successful healing pass is the old store plus
exactly the one resolution record. -/
theorem healAlertPass_logs_success (s : AppData) (alert : SystemAlert) (d : Diagnosis)
    (now nid : String) (hd : d.success = true) :
    (healAlertPass s alert d now nid).logs = s.logs ++ [resolutionLog alert d now nid] := by
  simp [healAlertPass, hd]

/-- The Log Store after a failed healing pass is unchanged. -/
theorem healAlertPass_logs_failure (s : AppData) (alert : SystemAlert) (d : Diagnosis)
    (now nid : String) (hd : d.success = false) :
    (healAlertPass s alert d now nid).logs = s.logs := by
  simp [healAlertPass, hd]

/-- Filtering the Log Store by membership of the id list that was itself
harvested from a filter of the same store reproduces that filter, as
long as the store ids are pairwise distinct. -/
theorem filter_by_own_ids (p : LogEntry → Bool) (logs : List LogEntry)
    (hnd : (logs.map fun l => l.id).Nodup) :
    (logs.filter fun l => ((logs.filter p).map fun l => l.id).contains l.id) =
      logs.filter p := by
  apply List.filter_congr
  intro l hl
  by_cases hp : p l = true
  · have hmem : l.id ∈ (logs.filter p).map fun l => l.id :=
      List.mem_map.mpr ⟨l, List.mem_filter.mpr ⟨hl, hp⟩, rfl⟩
    rw [hp, List.contains_eq_any_beq, List.any_eq_true]
    exact ⟨l.id, hmem, by simp⟩
  · simp only [Bool.not_eq_true] at hp
    rw [hp]
    rw [Bool.eq_false_iff]
    intro hc
    rw [List.contains_eq_any_beq, List.any_eq_true] at hc
    obtain ⟨x, hx, hbeq⟩ := hc
    obtain ⟨l2, hl2, rfl⟩ := List.mem_map.mp hx
    have hl2' := List.mem_filter.mp hl2
    have heq : l2 = l := List.inj_on_of_nodup_map hnd hl2'.1 hl (beq_iff_eq.mp hbeq).symm
    rw [heq] at hl2'
    rw [hl2'.2] at hp
    exact Bool.noConfusion hp

/-- Every single operation other than Reset Data leaves the Log Store at
least as long as before. -/
theorem applyOp_logs_mono (s : AppData) (op : AppOp) (hop : op.isReset = false) :
    s.logs.length ≤ (applyOp s op).logs.length := by
  cases op with
  | fileUpload parsed => simp [applyOp]
  | enterpriseScenario generated => simp [applyOp]
  | refresh heartbeat => simp [applyOp]
  | detect key res now nid => simp [applyOp]
  | heal alert d now nid =>
      by_cases hd : d.success
      · rw [show applyOp s (AppOp.heal alert d now nid) = healAlertPass s alert d now nid
          from rfl]
        rw [healAlertPass_logs_success s alert d now nid hd]
        simp
      · rw [show applyOp s (AppOp.heal alert d now nid) = healAlertPass s alert d now nid
          from rfl]
        rw [healAlertPass_logs_failure s alert d now nid (by simpa using hd)]
  | resetData => exact absurd hop (by simp [AppOp.isReset])

/-!
Concrete records used by witnesses and counterexamples.
-/

/-- An ERROR record, as the enterprise scenario produces for Kafka. -/
def sampleLog : LogEntry :=
  { id := "log-1"
    timestamp := "2024-01-01T00:00:00Z"
    service := "Kafka"
    level := LogLevel.ERROR
    message := "Consumer group lag exceeded threshold" }

/-- An INFO record, as handleRefresh appends. -/
def infoLog : LogEntry :=
  { id := "log-info"
    timestamp := "2024-01-01T00:01:00Z"
    service := "System Monitor"
    level := LogLevel.INFO
    message := "Heartbeat check passed. System metrics validated." }

/-- A heartbeat record for the refresh operation. -/
def heartbeatLog : LogEntry :=
  { id := "live-42"
    timestamp := "2024-01-01T00:02:00Z"
    service := "System Monitor"
    level := LogLevel.INFO
    message := "Heartbeat check passed. System metrics validated." }

/-- A correlation draft as the inference service returns it. -/
def sampleDraft : AlertDraft :=
  { title := "Kafka consumer stall"
    description := "Lag growing without consumption"
    severity := Severity.high
    affectedService := "Kafka" }

/-- An alert that already carries a recorded agent thought. -/
def alertPrior : SystemAlert :=
  { id := "alert-7"
    title := "Kafka lag incident"
    description := "Consumer lag growing"
    severity := Severity.medium
    status := AlertStatus.active
    affectedService := "Kafka"
    timestamp := "2024-01-01T00:00:00Z"
    agentThoughts := ["earlier analysis"] }

/-- A fresh diagnosis for the alert that already carries a thought. -/
def diagNew : Diagnosis :=
  { thoughts := "new analysis", action := "Restart Kafka Consumer", success := false }

/-- The record the store holds for the Glue alert after a failed-call
healing pass. -/
def healedGlueFallback : SystemAlert :=
  { alertGlue with
      status := AlertStatus.healing
      agentThoughts := ["Agent process failed."]
      fixAction := some "Manual intervention required" }

/-- The record the store holds for the Snowflake alert after a
successful healing pass. -/
def resolvedSnow : SystemAlert :=
  { alertSnow with
      status := AlertStatus.resolved
      agentThoughts := [diagSnow.thoughts]
      fixAction := some diagSnow.action }

/-- The record the store holds for the prior-thought alert after its
healing pass. -/
def replacedPrior : SystemAlert :=
  { alertPrior with
      status := AlertStatus.healing
      agentThoughts := [diagNew.thoughts]
      fixAction := some diagNew.action }

/-- Scenario C alert: explicit related log ids. -/
def alertRelated : SystemAlert :=
  { id := "alert-rel"
    title := "Correlated incident"
    description := "Linked records"
    severity := Severity.high
    status := AlertStatus.active
    affectedService := "Snowflake"
    timestamp := "2024-01-01T00:00:00Z"
    relatedLogIds := ["log-a", "log-c"] }

/-- Scenario C log records. -/
def logA : LogEntry :=
  { id := "log-a", timestamp := "t1", service := "Snowflake", level := LogLevel.ERROR,
    message := "stage empty" }

/-- Scenario C middle record, not referenced by the alert. -/
def logB : LogEntry :=
  { id := "log-b", timestamp := "t2", service := "SAP", level := LogLevel.INFO,
    message := "idoc processed" }

/-- Scenario C last record. -/
def logC : LogEntry :=
  { id := "log-c", timestamp := "t3", service := "Snowflake", level := LogLevel.CRITICAL,
    message := "freshness SLA broken" }

/-- Scenario D alert: no related ids, Kafka service. -/
def alertKafka : SystemAlert :=
  { id := "alert-kafka"
    title := "Kafka trouble"
    description := "Lag"
    severity := Severity.medium
    status := AlertStatus.active
    affectedService := "Kafka"
    timestamp := "2024-01-01T00:00:00Z" }

/-- Scenario D WARNING record for Kafka. -/
def warnKafka : LogEntry :=
  { id := "log-wk", timestamp := "t1", service := "Kafka", level := LogLevel.WARNING,
    message := "lag increasing" }

/-- Scenario D INFO record for Kafka. -/
def infoKafka : LogEntry :=
  { id := "log-ik", timestamp := "t2", service := "Kafka", level := LogLevel.INFO,
    message := "health check passed" }

/-- Alert with no related ids whose service matches no stored record. -/
def alertOrphan : SystemAlert :=
  { id := "alert-orphan"
    title := "SAP outage"
    description := "Connection refused"
    severity := Severity.high
    status := AlertStatus.active
    affectedService := "SAP"
    timestamp := "2024-01-01T00:00:00Z" }

/-- Alert whose related ids reference no stored record. -/
def alertGhost : SystemAlert :=
  { id := "alert-ghost"
    title := "Ghost incident"
    description := "Dangling references"
    severity := Severity.low
    status := AlertStatus.active
    affectedService := "Informatica"
    timestamp := "2024-01-01T00:00:00Z"
    relatedLogIds := ["log-zzz"] }

/-!
Claim theorems.
-/

/-- C1: the claim states that at most one Healing Sequencer run is in
flight per alert identifier, with no alert ever observed with two
concurrent in-progress diagnose calls.  The code violates this: the
Self-Healing Effect re-runs on every alerts commit without a guard or
cleanup, so marking the first of two active alerts healing launches a
second healSystem invocation whose snapshot still contains the second
alert; under the recorded schedule the run reaches a state in which two
invocations hold an in-flight diagnose call for the same alert id
simultaneously. -/
theorem c1_concurrent_diagnose_race :
    diagnosingCount "alert-0-1" (runActs raceInit raceScheduleC1).tasks = 2 := by
  decide

/-- C2: the claim states that every alert moves forward only along
active, healing, resolved.  The code violates this through the same
effect re-entrancy: the second invocation resolves the second alert,
after which the first invocation, still iterating its stale snapshot,
maps that alert back to healing; the recorded schedule observes status
resolved and afterwards status healing for the same alert. -/
theorem c2_backward_transition_race :
    statusOf "alert-0-1" (runActs raceInit (raceScheduleC2.take 5)).alerts =
        some AlertStatus.resolved ∧
      statusOf "alert-0-1" (runActs raceInit raceScheduleC2).alerts =
        some AlertStatus.healing := by
  decide

/-- C3 counterexample: the Reset Data operation, one of the operations
the claim quantifies over, shrinks the Log Store from one record to
zero, so the record count is not monotonically non-decreasing. -/
theorem c3_reset_shrinks_log_store :
    (applyOp { logs := [sampleLog], alerts := [] } AppOp.resetData).logs.length <
      ({ logs := [sampleLog], alerts := [] } : AppData).logs.length := by
  decide

/-- Monotonicity of the Log Store length under any reset-free operation
sequence. -/
theorem applyOps_logs_mono (ops : List AppOp) :
    ∀ s : AppData, (∀ op ∈ ops, op.isReset = false) →
      s.logs.length ≤ (applyOps s ops).logs.length := by
  induction ops with
  | nil =>
      intro s _
      simp [applyOps]
  | cons op rest ih =>
      intro s h
      have h1 : op.isReset = false := h op (List.mem_cons_self op rest)
      have h2 : ∀ o ∈ rest, o.isReset = false := fun o ho => h o (List.mem_cons_of_mem op ho)
      show s.logs.length ≤ (applyOps (applyOp s op) rest).logs.length
      exact le_trans (applyOp_logs_mono s op h1) (ih (applyOp s op) h2)

/-- C3 amended: for every sequence of the listed operations that does
not contain the Reset Data operation, the Log Store record count is
monotonically non-decreasing; the Reset Data operation itself, rendered
only when records exist, clears the Log Store entirely rather than
preserving it. -/
theorem c3_log_store_monotone_without_reset :
    ∀ (s : AppData) (ops : List AppOp),
      ((∀ op ∈ ops, op.isReset = false) →
        s.logs.length ≤ (applyOps s ops).logs.length) ∧
      (s.logs ≠ [] → (applyOp s AppOp.resetData).logs = []) := by
  intro s ops
  refine ⟨fun h => applyOps_logs_mono ops s h, fun h => ?_⟩
  simp [applyOp, h]

/-- C3 witness: a concrete reset-free sequence of an upload, a refresh,
a detection and a healing pass never shrinks the one-record store, and
a reset from that store leaves zero records. -/
theorem c3_log_store_monotone_without_reset_witness :
    (({ logs := [sampleLog], alerts := [] } : AppData).logs.length ≤
      (applyOps { logs := [sampleLog], alerts := [] }
        [ AppOp.fileUpload [infoLog]
        , AppOp.refresh heartbeatLog
        , AppOp.detect true (Except.ok [sampleDraft]) "2024-01-01T00:03:00Z" "77"
        , AppOp.heal alertGlue diagGlue "2024-01-01T00:04:00Z" "78" ]).logs.length) ∧
    (applyOp { logs := [sampleLog], alerts := [] } AppOp.resetData).logs = [] :=
  ⟨(c3_log_store_monotone_without_reset { logs := [sampleLog], alerts := [] }
      [ AppOp.fileUpload [infoLog]
      , AppOp.refresh heartbeatLog
      , AppOp.detect true (Except.ok [sampleDraft]) "2024-01-01T00:03:00Z" "77"
      , AppOp.heal alertGlue diagGlue "2024-01-01T00:04:00Z" "78" ]).1 (by decide),
   (c3_log_store_monotone_without_reset { logs := [sampleLog], alerts := [] } []).2
      (by decide)⟩

/-- C4: when the diagnose request raises, agentDiagnoseAndHeal returns
the fallback tuple with action Manual intervention required and success
false, the healing pass appends no log record (in particular no SUCCESS
record), and every store entry for the processed alert id ends the pass
with status healing and the fallback fixAction.  The sequencer is a
total function, so the orchestrator does not crash. -/
theorem c4_diagnose_failure_fallback :
    ∀ (s : AppData) (alert : SystemAlert) (msg now nid : String),
      agentDiagnoseAndHeal true (Except.error msg) =
        { thoughts := "Agent process failed.", action := "Manual intervention required",
          success := false } ∧
      (healAlertPass s alert (agentDiagnoseAndHeal true (Except.error msg)) now nid).logs =
        s.logs ∧
      ∀ a ∈ (healAlertPass s alert (agentDiagnoseAndHeal true (Except.error msg)) now nid).alerts,
        a.id = alert.id →
          a.status = AlertStatus.healing ∧ a.fixAction = some "Manual intervention required" := by
  intro s alert msg now nid
  refine ⟨rfl, healAlertPass_logs_failure s alert _ now nid rfl, ?_⟩
  intro a ha hid
  have h := healAlertPass_alerts_spec s alert
    (agentDiagnoseAndHeal true (Except.error msg)) now nid a ha hid
  refine ⟨?_, ?_⟩
  · have h2 := h.2.2
    simpa [agentDiagnoseAndHeal] using h2
  · have h1 := h.2.1
    simpa [agentDiagnoseAndHeal] using h1

/-- C4 witness: with one Glue alert in the store and a raising diagnose
call, the pass leaves the Log Store unchanged and the stored record ends
healing with the fallback action. -/
theorem c4_diagnose_failure_fallback_witness :
    (healAlertPass { logs := [], alerts := [alertGlue] } alertGlue
        (agentDiagnoseAndHeal true (Except.error "network timeout"))
        "2024-01-01T00:05:00Z" "91").logs = [] ∧
    healedGlueFallback.status = AlertStatus.healing ∧
    healedGlueFallback.fixAction = some "Manual intervention required" :=
  ⟨(c4_diagnose_failure_fallback { logs := [], alerts := [alertGlue] } alertGlue
      "network timeout" "2024-01-01T00:05:00Z" "91").2.1,
   (c4_diagnose_failure_fallback { logs := [], alerts := [alertGlue] } alertGlue
      "network timeout" "2024-01-01T00:05:00Z" "91").2.2
      healedGlueFallback (by decide) (by decide)⟩

/-- C5 counterexample: for an alert that already carries a recorded
thought, the diagnosis update stores exactly the one-element list with
the new narrative, not the previous thoughts extended by it, so the
claimed preservation of previously recorded thoughts fails. -/
theorem c5_thoughts_not_preserved :
    ((healAlertPass { logs := [], alerts := [alertPrior] } alertPrior diagNew
        "2024-01-01T00:06:00Z" "92").alerts.map fun a => a.agentThoughts) =
      [["new analysis"]] ∧
    ((healAlertPass { logs := [], alerts := [alertPrior] } alertPrior diagNew
        "2024-01-01T00:06:00Z" "92").alerts.map fun a => a.agentThoughts) ≠
      [alertPrior.agentThoughts ++ [diagNew.thoughts]] := by
  decide

/-- C5 amended: when diagnose returns, the processed alert holds exactly
the one-element thought list containing the returned narrative (any
previously recorded thoughts are discarded) and fixAction is set to the
returned action, regardless of the success flag. -/
theorem c5_thoughts_replaced :
    ∀ (s : AppData) (alert : SystemAlert) (d : Diagnosis) (now nid : String),
      ∀ a ∈ (healAlertPass s alert d now nid).alerts, a.id = alert.id →
        a.agentThoughts = [d.thoughts] ∧ a.fixAction = some d.action := by
  intro s alert d now nid a ha hid
  have h := healAlertPass_alerts_spec s alert d now nid a ha hid
  exact ⟨h.1, h.2.1⟩

/-- C5 witness: the prior-thought alert ends its pass with exactly the
new narrative and the returned action. -/
theorem c5_thoughts_replaced_witness :
    replacedPrior.agentThoughts = [diagNew.thoughts] ∧
    replacedPrior.fixAction = some diagNew.action :=
  c5_thoughts_replaced { logs := [], alerts := [alertPrior] } alertPrior diagNew
    "2024-01-01T00:06:00Z" "92" replacedPrior (by decide) (by decide)

/-- C6: when diagnose reports success, the pass ends with the processed
alert resolved and the Log Store extended by exactly one record, whose
level is SUCCESS and whose message cites the alert title and the
returned action. -/
theorem c6_success_resolution :
    ∀ (s : AppData) (alert : SystemAlert) (d : Diagnosis) (now nid : String),
      d.success = true →
        (healAlertPass s alert d now nid).logs =
          s.logs ++ [resolutionLog alert d now nid] ∧
        (resolutionLog alert d now nid).level = LogLevel.SUCCESS ∧
        (resolutionLog alert d now nid).message =
          "Resolved alert: " ++ alert.title ++ ". Action Taken: " ++ d.action ∧
        ∀ a ∈ (healAlertPass s alert d now nid).alerts, a.id = alert.id →
          a.status = AlertStatus.resolved := by
  intro s alert d now nid hd
  refine ⟨healAlertPass_logs_success s alert d now nid hd, rfl, rfl, ?_⟩
  intro a ha hid
  have h := (healAlertPass_alerts_spec s alert d now nid a ha hid).2.2
  simpa [hd] using h

/-- C6 witness: the Snowflake alert with a successful diagnosis ends
resolved and the store gains exactly the one SUCCESS record. -/
theorem c6_success_resolution_witness :
    (healAlertPass { logs := [sampleLog], alerts := [alertSnow] } alertSnow diagSnow
        "2024-01-01T00:07:00Z" "93").logs =
      [sampleLog] ++ [resolutionLog alertSnow diagSnow "2024-01-01T00:07:00Z" "93"] ∧
    resolvedSnow.status = AlertStatus.resolved :=
  ⟨(c6_success_resolution { logs := [sampleLog], alerts := [alertSnow] } alertSnow diagSnow
      "2024-01-01T00:07:00Z" "93" (by decide)).1,
   (c6_success_resolution { logs := [sampleLog], alerts := [alertSnow] } alertSnow diagSnow
      "2024-01-01T00:07:00Z" "93" (by decide)).2.2.2
      resolvedSnow (by decide) (by decide)⟩

/-- C7: the Incident Detector runs only when the Log Store holds at
least one ERROR or CRITICAL record and the Alert Store is empty; with
zero ERROR or CRITICAL records the monitoring effect leaves the alert
store untouched whatever the inference would return, and with a
non-empty Alert Store no further detection occurs regardless of the
logs. -/
theorem c7_detection_gate :
    ∀ (logs : List LogEntry) (alerts : List SystemAlert) (key : Bool)
      (res : Except String (List AlertDraft)) (now nid : String),
      ((∀ l ∈ logs, l.level ≠ LogLevel.ERROR ∧ l.level ≠ LogLevel.CRITICAL) →
        monitorLogs logs alerts key res now nid = alerts) ∧
      (alerts ≠ [] → monitorLogs logs alerts key res now nid = alerts) := by
  intro logs alerts key res now nid
  constructor
  · intro h
    unfold monitorLogs
    by_cases hl : logs = []
    · simp [hl]
    · have hany :
          (logs.any fun l => l.level == LogLevel.ERROR || l.level == LogLevel.CRITICAL) =
            false := by
        rw [List.any_eq_false]
        intro l hlmem
        have hml := h l hlmem
        simp [hml.1, hml.2]
      simp [hl, hany]
  · intro h
    have hne : alerts.isEmpty = false := by
      rw [Bool.eq_false_iff]
      intro hc
      exact h (List.isEmpty_iff.mp hc)
    unfold monitorLogs
    by_cases hl : logs = []
    · simp [hl]
    · simp [hl, hne]

/-- C7 witness: an INFO-only store produces no alert even with a draft
available, and an existing alert blocks detection even with an ERROR
record present. -/
theorem c7_detection_gate_witness :
    monitorLogs [infoLog] [] true (Except.ok [sampleDraft]) "2024-01-01T00:08:00Z" "94" =
      [] ∧
    monitorLogs [sampleLog] [alertGlue] true (Except.ok [sampleDraft])
        "2024-01-01T00:08:00Z" "94" = [alertGlue] :=
  ⟨(c7_detection_gate [infoLog] [] true (Except.ok [sampleDraft])
      "2024-01-01T00:08:00Z" "94").1 (by decide),
   (c7_detection_gate [sampleLog] [alertGlue] true (Except.ok [sampleDraft])
      "2024-01-01T00:08:00Z" "94").2 (by decide)⟩

/-- C8 counterexample: for an alert with empty relatedLogIds whose
service and level fallback matches no stored record, the view returns
the full Log Store rather than the empty filter result the claim
requires. -/
theorem c8_fallback_empty_returns_all :
    relatedLogsView alertOrphan [infoLog] ≠
        [infoLog].filter (severeForService alertOrphan) ∧
      relatedLogsView alertOrphan [infoLog] = [infoLog] := by
  decide

/-- C8 amended: with pairwise distinct log ids, the primary path returns
exactly the records whose identifiers are in relatedLogIds in Log Store
order, and the fallback path returns exactly the records matching the
service and severe-level filter in Log Store order provided that filter
matches at least one record (when it matches none the full Log Store is
returned instead). -/
theorem c8_related_logs_view :
    ∀ (alert : SystemAlert) (logs : List LogEntry),
      (logs.map fun l => l.id).Nodup →
        (alert.relatedLogIds ≠ [] →
          relatedLogsView alert logs =
            logs.filter fun l => alert.relatedLogIds.contains l.id) ∧
        (alert.relatedLogIds = [] → logs.filter (severeForService alert) ≠ [] →
          relatedLogsView alert logs = logs.filter (severeForService alert)) := by
  intro alert logs hnd
  constructor
  · intro h
    simp [relatedLogsView, handleViewRelatedLogs, h, displayedLogs]
  · intro h hne
    have hids : ((logs.filter (severeForService alert)).map fun l => l.id) ≠ [] := by
      simpa using hne
    simp only [relatedLogsView, handleViewRelatedLogs, h, ne_eq, not_true_eq_false,
      if_false, hids, not_false_eq_true, if_true, displayedLogs]
    exact filter_by_own_ids (severeForService alert) logs hnd

/-- C8 witness: scenario C returns exactly the two referenced records in
store order, and scenario D returns exactly the Kafka WARNING record. -/
theorem c8_related_logs_view_witness :
    relatedLogsView alertRelated [logA, logB, logC] = [logA, logC] ∧
    relatedLogsView alertKafka [warnKafka, infoKafka] = [warnKafka] := by
  constructor
  · have h := (c8_related_logs_view alertRelated [logA, logB, logC] (by decide)).1
      (by decide)
    rw [h]
    decide
  · have h := (c8_related_logs_view alertKafka [warnKafka, infoKafka] (by decide)).2
      (by decide) (by decide)
    rw [h]
    decide

/-- C9 counterexample: for an alert whose non-empty relatedLogIds match
no stored record, the applicable primary path yields zero records and
the view result is empty, not the full Log Store the claim requires. -/
theorem c9_primary_no_match_empty :
    ([infoLog].filter fun l => alertGhost.relatedLogIds.contains l.id) = [] ∧
      relatedLogsView alertGhost [infoLog] = [] ∧
      [infoLog] ≠ ([] : List LogEntry) := by
  decide

/-- C9 amended: only the fallback path degrades to no filter: when
relatedLogIds is empty and the service and severe-level fallback matches
no record, the view returns the full Log Store; when relatedLogIds is
non-empty but matches no stored record the result is empty instead. -/
theorem c9_fallback_empty_no_filter :
    ∀ (alert : SystemAlert) (logs : List LogEntry),
      alert.relatedLogIds = [] → logs.filter (severeForService alert) = [] →
        relatedLogsView alert logs = logs := by
  intro alert logs h hf
  simp [relatedLogsView, handleViewRelatedLogs, h, hf, displayedLogs]

/-- C9 witness: the orphan alert with an unmatched service filter views
the full one-record store. -/
theorem c9_fallback_empty_no_filter_witness :
    relatedLogsView alertOrphan [infoLog] = [infoLog] :=
  c9_fallback_empty_no_filter alertOrphan [infoLog] (by decide) (by decide)

/-- C10: with the API key absent, agentDiagnoseAndHeal returns the
distinct tuple with thoughts API Key missing., action None and success
false, independent of what the inference call would have produced, and
that action differs from the call-failure fallback action, so a stalled
alert carries a different fixAction in the two cases. -/
theorem c10_missing_key_distinct :
    ∀ r : Except String Diagnosis,
      agentDiagnoseAndHeal false r =
        { thoughts := "API Key missing.", action := "None", success := false } ∧
      (agentDiagnoseAndHeal false r).action ≠
        (agentDiagnoseAndHeal true (Except.error "request failed")).action := by
  intro r
  have h1 : agentDiagnoseAndHeal false r =
      { thoughts := "API Key missing.", action := "None", success := false } := rfl
  refine ⟨h1, ?_⟩
  rw [h1]
  decide

/-- C10 witness: the missing-key result at a concrete would-be
successful call. -/
theorem c10_missing_key_distinct_witness :
    agentDiagnoseAndHeal false (Except.ok diagGlue) =
      { thoughts := "API Key missing.", action := "None", success := false } :=
  (c10_missing_key_distinct (Except.ok diagGlue)).1
